import Mathlib

/-!
# Verification of the OTP authentication backend

Shallow embedding of the core of a phone-number-based authentication
backend (rate limiter, phone normalization, OTP gateway test mode, JWT
session tokens, auth/profile route handlers), with theorems checking the
natural-language specification against the embedded code.

Times are Unix timestamps in milliseconds, modelled as `Nat`.
Phone numbers and keys are modelled as `List Char` (JS strings).
-/

namespace VishwakarmaBackend

/-! ## Rate limiter (middleware/rateLimiter.js)

The store is `Map<string, {count, resetTime, blocked}>`, embedded as an
association list keyed by the digits of the phone number. -/

structure RLEntry where
  count : Nat
  resetTime : Nat
  blocked : Bool
deriving DecidableEq, Repr

abbrev RLKey := List Char

abbrev RLStore := List (RLKey × RLEntry)

/-- Embeds `Map.get`: first binding for the key, if any. -/
def rlLookup : RLStore → RLKey → Option RLEntry
  | [], _ => none
  | (k', e) :: t, k => if k' = k then some e else rlLookup t k

/-- Embeds `Map.set`: replace the binding for the key, or append a new one. -/
def rlSet : RLStore → RLKey → RLEntry → RLStore
  | [], k, e => [(k, e)]
  | (k', e') :: t, k, e => if k' = k then (k, e) :: t else (k', e') :: rlSet t k e

/-- Config field `RATE_LIMIT_CONFIG.maxAttempts`. -/
def maxAttempts : Nat := 3

/-- Config field `RATE_LIMIT_CONFIG.windowMs`. -/
def windowMs : Nat := 60 * 1000

/-- Config field `RATE_LIMIT_CONFIG.blockDurationMs`. -/
def blockDurationMs : Nat := 5 * 60 * 1000

/-- Outcome of one `otpRateLimiter` invocation: pass the request on
(`next()`), deny 429 from the blocked branch (with the remaining seconds
printed in the message), or deny 429 from the just-exceeded branch. -/
inductive RLResult
  | allow
  | denyBlocked (remainingSecs : Nat)
  | denyExceeded
deriving DecidableEq, Repr

/-- Key derivation `phone.replace(/\D/g, '')`: strips non-digits. -/
def digitsOnly (phone : List Char) : List Char :=
  phone.filter Char.isDigit

/-- The body of `otpRateLimiter` after key derivation, as a function of
the store, the derived key and the current time; returns the result and
the updated store. -/
def otpRateLimiterCheck (s : RLStore) (key : RLKey) (now : Nat) : RLResult × RLStore :=
  match rlLookup s key with
  | none =>
      (RLResult.allow, rlSet s key ⟨1, now + windowMs, false⟩)
  | some entry =>
      if now > entry.resetTime then
        (RLResult.allow, rlSet s key ⟨1, now + windowMs, false⟩)
      else if entry.blocked then
        (RLResult.denyBlocked ((entry.resetTime - now + 999) / 1000), s)
      else
        let c := entry.count + 1
        if c > maxAttempts then
          (RLResult.denyExceeded, rlSet s key ⟨c, now + blockDurationMs, true⟩)
        else
          (RLResult.allow, rlSet s key ⟨c, entry.resetTime, entry.blocked⟩)

/-- Sweep `cleanupExpiredEntries`: delete every entry whose `resetTime` has
passed. -/
def cleanupExpiredEntries (s : RLStore) (now : Nat) : RLStore :=
  s.filter (fun p => !(now > p.2.resetTime))

/-- The reference policy for the rate-limit check, written from the
specification's words: if no entry exists, or the stored entry's
`resetTime` has passed (lazy expiry), create a fresh entry with count=1
and a 60-second window and allow; otherwise, if the entry is blocked and
still within its block window, deny with remaining seconds
`ceil((resetTime-now)/1000)`; otherwise increment the count and, if the
post-increment count exceeds 3, transition to blocked with a 300-second
window and deny, else allow and persist the incremented count. -/
def otpPolicySpec (s : RLStore) (key : RLKey) (now : Nat) : RLResult × RLStore :=
  match rlLookup s key with
  | none =>
      (RLResult.allow, rlSet s key ⟨1, now + 60 * 1000, false⟩)
  | some entry =>
      if entry.resetTime < now then
        (RLResult.allow, rlSet s key ⟨1, now + 60 * 1000, false⟩)
      else if entry.blocked then
        (RLResult.denyBlocked ((entry.resetTime - now) ⌈/⌉ 1000), s)
      else if entry.count + 1 > 3 then
        (RLResult.denyExceeded, rlSet s key ⟨entry.count + 1, now + 300 * 1000, true⟩)
      else
        (RLResult.allow, rlSet s key ⟨entry.count + 1, entry.resetTime, entry.blocked⟩)

/-- HTTP status of the send-OTP endpoint in test mode, where the gateway
send always reports `pending`: an allowed request answers 200, a denied
one 429. -/
def sendOtpStatus (r : RLResult) : Nat :=
  match r with
  | RLResult.allow => 200
  | RLResult.denyBlocked _ => 429
  | RLResult.denyExceeded => 429

/-- One send-OTP request in test mode: rate-limit check on the digit key,
then the gateway send (always `pending` in test mode, hence 200 on
allow). -/
def sendOtpTestMode (s : RLStore) (phone : List Char) (now : Nat) : Nat × RLStore :=
  (sendOtpStatus (otpRateLimiterCheck s (digitsOnly phone) now).1,
   (otpRateLimiterCheck s (digitsOnly phone) now).2)

/-- A sequence of send-OTP requests for one phone at the given times,
threading the rate-limit store; returns the list of HTTP statuses. -/
def sendOtpTrace (s : RLStore) (phone : List Char) : List Nat → List Nat × RLStore
  | [] => ([], s)
  | t :: ts =>
      ((sendOtpTestMode s phone t).1
         :: (sendOtpTrace (sendOtpTestMode s phone t).2 phone ts).1,
       (sendOtpTrace (sendOtpTestMode s phone t).2 phone ts).2)

theorem rlLookup_rlSet_self (s : RLStore) (k : RLKey) (e : RLEntry) :
    rlLookup (rlSet s k e) k = some e := by
  induction s with
  | nil => simp [rlSet, rlLookup]
  | cons p t ih =>
      obtain ⟨k', e'⟩ := p
      by_cases h : k' = k
      · simp [rlSet, rlLookup, h]
      · simp [rlSet, rlLookup, h, ih]

theorem rlLookup_rlSet_ne (s : RLStore) (k k' : RLKey) (e : RLEntry)
    (h : k' ≠ k) : rlLookup (rlSet s k e) k' = rlLookup s k' := by
  induction s with
  | nil => simp [rlSet, rlLookup, Ne.symm h]
  | cons p t ih =>
      obtain ⟨k₀, e₀⟩ := p
      by_cases h₀ : k₀ = k
      · subst h₀
        simp [rlSet, rlLookup, Ne.symm h]
      · simp only [rlSet, if_neg h₀]
        by_cases h₁ : k₀ = k'
        · simp [rlLookup, h₁]
        · simp [rlLookup, h₁, ih]

/-! ## Phone normalization (middleware/validators.js, `normalizePhone`) -/

/-- Embeds `s.startsWith(p)` on JS strings of ASCII characters. -/
def jsStartsWith : List Char → List Char → Bool
  | _, [] => true
  | [], _ :: _ => false
  | c :: s, p :: ps => if c = p then jsStartsWith s ps else false

/-- Embeds `phone.replace(/[^\d+]/g, '')`: keep digits and plus signs. -/
def stripNonPhoneChars (phone : List Char) : List Char :=
  phone.filter (fun c => c.isDigit || c = '+')

/-- The body of the `normalizePhone` middleware: strip separators, then
add a `+91` prefix according to the observed shape. -/
def normalizePhone (input : List Char) : List Char :=
  if jsStartsWith (stripNonPhoneChars input) ('+' :: '9' :: '1' :: []) then
    stripNonPhoneChars input
  else if jsStartsWith (stripNonPhoneChars input) ('9' :: '1' :: [])
      && (stripNonPhoneChars input).length = 12 then
    '+' :: stripNonPhoneChars input
  else if (stripNonPhoneChars input).length = 10 then
    '+' :: '9' :: '1' :: stripNonPhoneChars input
  else
    stripNonPhoneChars input

/-! ## Verification gateway, test mode (services/twilioService.js) -/

/-- The `status` field of a Twilio verification-check result. -/
inductive GwStatus
  | approved
  | pending
deriving DecidableEq, Repr

/-- The result shape `{status, valid}` returned by `verifyOTP`. -/
structure GwResult where
  status : GwStatus
  valid : Bool
deriving DecidableEq, Repr

/-- Embeds `otp.length === 6 && /^\d{6}$/.test(otp)`. -/
def isSixDigitCode (otp : List Char) : Bool :=
  otp.length = 6 && otp.all Char.isDigit

/-- The test-mode branch of `verifyOTP`: a syntactically valid 6-digit
code is approved/valid, anything else is pending/not valid; the provider
is never contacted. -/
def verifyOTPTestMode (otp : List Char) : GwResult :=
  if isSixDigitCode otp then ⟨GwStatus.approved, true⟩
  else ⟨GwStatus.pending, false⟩

/-! ## Session tokens (utils/jwt.js over the external `jsonwebtoken`)

The signing/verification primitive is an external collaborator; the spec
pins only its interface (signed claims, configured expiry, expired vs
invalid verification failures). -/

/-- The claims payload `{userId, phone}` placed in a token. -/
structure Claims where
  userId : List Char
  phone : List Char
deriving DecidableEq, Repr

/-- A token: either a well-formed signed token carrying its claims,
issue/expiry times (seconds) and the secret it was signed with, or a
malformed string. -/
inductive Token
  | signed (claims : Claims) (iat : Nat) (exp : Nat) (secret : List Char)
  | malformed
deriving DecidableEq, Repr

/-- Result of verifying a token: decoded claims, or one of the two
distinguished failures (`TokenExpiredError` vs `JsonWebTokenError`). -/
inductive VerifyOutcome
  | ok (c : Claims)
  | expired
  | invalid
deriving DecidableEq, Repr

/-- Modelled from the spec: the external `jsonwebtoken` `sign` primitive
signs the claims with the server-held secret and stamps issue time `now`
and expiry `now + expiresInSec`. -/
def jwtSign (claims : Claims) (secret : List Char) (now expiresInSec : Nat) : Token :=
  Token.signed claims now (now + expiresInSec) secret

/-- Modelled from the spec: the external `jsonwebtoken` `verify`
primitive rejects a malformed token or a signature made with a different
secret as invalid (`JsonWebTokenError`), reports a correctly signed token
whose expiry has elapsed as expired (`TokenExpiredError`), and otherwise
yields the embedded claims. -/
def jwtVerify (t : Token) (secret : List Char) (now : Nat) : VerifyOutcome :=
  match t with
  | Token.malformed => VerifyOutcome.invalid
  | Token.signed c _ exp sig =>
      if sig ≠ secret then VerifyOutcome.invalid
      else if now ≥ exp then VerifyOutcome.expired
      else VerifyOutcome.ok c

/-- Default `JWT_EXPIRES_IN` of `'7d'`, in seconds. -/
def jwtExpiresInSec : Nat := 7 * 24 * 60 * 60

/-- Embeds `generateToken(userId, phone)`: sign the payload with
`JWT_SECRET` and expiry `JWT_EXPIRES_IN`. -/
def generateToken (secret : List Char) (userId phone : List Char) (now : Nat) : Token :=
  jwtSign ⟨userId, phone⟩ secret now jwtExpiresInSec

/-- Embeds `verifyToken(token)`, i.e. `jwt.verify(token, JWT_SECRET)`. -/
def verifyToken (secret : List Char) (t : Token) (now : Nat) : VerifyOutcome :=
  jwtVerify t secret now

/-- The 401 message chosen by the `authenticate` middleware when token
verification fails (`TokenExpiredError` vs `JsonWebTokenError` branch). -/
def authFailureMessage : VerifyOutcome → Option (List Char)
  | VerifyOutcome.expired => some "Token has expired. Please login again.".data
  | VerifyOutcome.invalid => some "Invalid token".data
  | VerifyOutcome.ok _ => none

/-! ## Verify-OTP route handler (routes/auth.js, POST /api/auth/verify-otp)

The profile store is abstracted as a lookup from phone to the existing
user's id (`User.findOne({phone})`). -/

abbrev UserStore := List (List Char × List Char)

def userLookup : UserStore → List Char → Option (List Char)
  | [], _ => none
  | (ph, uid) :: t, phone => if ph = phone then some uid else userLookup t phone

/-- The response of the verify-OTP handler after the gateway check. -/
inductive VerifyOtpResp
  | invalidOtp
  | existingUser (token : Token)
  | newUser
deriving DecidableEq, Repr

/-- HTTP status of each verify-OTP response. -/
def verifyOtpHttpStatus : VerifyOtpResp → Nat
  | VerifyOtpResp.invalidOtp => 400
  | VerifyOtpResp.existingUser _ => 200
  | VerifyOtpResp.newUser => 200

/-- The `token` field of the verify-OTP response body, absent unless an
existing user was found. -/
def verifyOtpTokenField : VerifyOtpResp → Option Token
  | VerifyOtpResp.existingUser tok => some tok
  | _ => none

/-- The `isNewUser` field of the verify-OTP response body. -/
def verifyOtpIsNewUserField : VerifyOtpResp → Option Bool
  | VerifyOtpResp.invalidOtp => none
  | VerifyOtpResp.existingUser _ => some false
  | VerifyOtpResp.newUser => some true

/-- The verify-OTP handler after the gateway result is in: not
valid/approved answers 400; otherwise look the phone up, issue a token
for an existing user, or report `isNewUser` with no token and no write
(the returned store is the post-state of the profile store). -/
def verifyOtpHandler (gw : GwResult) (users : UserStore) (phone : List Char)
    (secret : List Char) (now : Nat) : VerifyOtpResp × UserStore :=
  if !gw.valid || gw.status ≠ GwStatus.approved then
    (VerifyOtpResp.invalidOtp, users)
  else
    match userLookup users phone with
    | some uid => (VerifyOtpResp.existingUser (generateToken secret uid phone now), users)
    | none => (VerifyOtpResp.newUser, users)

/-! ## Register route handler (routes/auth.js, POST /api/auth/register-user)

The duplicate handling has two paths: the pre-write `User.findOne` check,
and the `error.code === 11000` catch branch around `user.save()`. -/

/-- The error thrown by `user.save()` when it fails. -/
inductive SaveError
  | dupKey
  | validationErr (msg : List Char)
  | other
deriving DecidableEq, Repr

/-- A register response: status code and, for errors, the message. -/
inductive RegisterResp
  | created (token : Token)
  | clientError (msg : List Char)
  | serverError
deriving DecidableEq, Repr

def registerHttpStatus : RegisterResp → Nat
  | RegisterResp.created _ => 201
  | RegisterResp.clientError _ => 400
  | RegisterResp.serverError => 500

def alreadyExistsMsg : List Char :=
  "User with this phone number already exists".data

/-- The handler's response when the pre-write lookup finds an existing
user with the same phone. -/
def registerDuplicateResp : RegisterResp :=
  RegisterResp.clientError alreadyExistsMsg

/-- The catch branch of the register handler: mongoose duplicate-key
errors (code 11000) answer the 400 already-exists message, mongoose
validation errors answer 400 with their message, anything else falls to
the global error handler (500). -/
def registerCatch : SaveError → RegisterResp
  | SaveError.dupKey => RegisterResp.clientError alreadyExistsMsg
  | SaveError.validationErr msg => RegisterResp.clientError msg
  | SaveError.other => RegisterResp.serverError

/-! Interleaving model for two concurrent register calls with the same
phone. Each call performs two suspension-separated steps: the pre-write
lookup (`User.findOne`), then either the duplicate response (if the
lookup saw the user) or the write (`user.save()`), which succeeds iff no
document with that phone exists at write time and otherwise raises the
11000 duplicate-key error. -/

/-- Response class of a finished register call in the race model. -/
inductive RegOutcome
  | created201
  | dupExists400
  | internal500
deriving DecidableEq, Repr, Fintype

/-- Progress of one register call. -/
inductive CallSt
  | idle
  | checked (saw : Bool)
  | done (r : RegOutcome)
deriving DecidableEq, Repr, Fintype

/-- Shared state: whether a document with the contested phone exists,
plus both calls' progress. -/
structure RaceState where
  present : Bool
  a : CallSt
  b : CallSt
deriving DecidableEq, Repr, Fintype

inductive CallId
  | A
  | B
deriving DecidableEq, Repr, Fintype

/-- Run one call's next pending step against the store. -/
def stepCall (present : Bool) : CallSt → Bool × CallSt
  | CallSt.idle => (present, CallSt.checked present)
  | CallSt.checked true => (present, CallSt.done RegOutcome.dupExists400)
  | CallSt.checked false =>
      if present then (present, CallSt.done RegOutcome.dupExists400)
      else (true, CallSt.done RegOutcome.created201)
  | CallSt.done r => (present, CallSt.done r)

def stepRace (s : RaceState) : CallId → RaceState
  | CallId.A =>
      let (p, c) := stepCall s.present s.a
      ⟨p, c, s.b⟩
  | CallId.B =>
      let (p, c) := stepCall s.present s.b
      ⟨p, s.a, c⟩

def runRace (s : RaceState) (sched : List CallId) : RaceState :=
  sched.foldl stepRace s

/-- Initial state: no document with the phone exists yet. -/
def initRace : RaceState := ⟨false, CallSt.idle, CallSt.idle⟩

/-- The HTTP status and message the handler sends for each race outcome:
201 from the success path, the 400 already-exists message from either the
pre-check or the 11000 catch branch, 500 only from the global fallback. -/
def raceStatusMsg : RegOutcome → Nat × Option (List Char)
  | RegOutcome.created201 => (201, none)
  | RegOutcome.dupExists400 => (400, some alreadyExistsMsg)
  | RegOutcome.internal500 => (500, none)

/-! ## Update-profile route handler (routes/auth.js, PUT /api/auth/update-profile) -/

/-- A JSON-ish value as it appears in `req.body`, plus the `Date` object
the handler substitutes for a `dateOfBirth` string. -/
inductive JVal
  | str (s : List Char)
  | num (n : Int)
  | boolean (b : Bool)
  | null
  | date (iso : List Char)
deriving DecidableEq, Repr

/-- JS truthiness of a `JVal`. -/
def JVal.truthy : JVal → Bool
  | JVal.str s => s ≠ []
  | JVal.num n => n ≠ 0
  | JVal.boolean b => b
  | JVal.null => false
  | JVal.date _ => true

/-- A request body / update object: key-value pairs with distinct keys. -/
abbrev Body := List (List Char × JVal)

def getKey : Body → List Char → Option JVal
  | [], _ => none
  | (k', v) :: t, k => if k' = k then some v else getKey t k

/-- Embeds `delete obj[k]`. -/
def delKey (b : Body) (k : List Char) : Body :=
  b.filter (fun p => p.1 ≠ k)

/-- Truthiness of `updateData[k]` (`undefined`, i.e. an absent key, is
falsy). -/
def truthyKey (b : Body) (k : List Char) : Bool :=
  match getKey b k with
  | some v => v.truthy
  | none => false

/-- The field-stripping prelude of the update-profile handler: delete
`phone` if truthy, `_id` if truthy, and `__v`, `createdAt`, `updatedAt`,
`joinedDate` unconditionally. -/
def stripPhoneIfTruthy (b : Body) : Body :=
  if truthyKey b "phone".data then delKey b "phone".data else b

def stripIdIfTruthy (b : Body) : Body :=
  if truthyKey b "_id".data then delKey b "_id".data else b

def stripUpdateFields (b : Body) : Body :=
  delKey (delKey (delKey (delKey (stripIdIfTruthy (stripPhoneIfTruthy b))
    "__v".data) "createdAt".data) "updatedAt".data) "joinedDate".data

/-- Embeds `if (updateData.dateOfBirth && typeof updateData.dateOfBirth === 'string')
updateData.dateOfBirth = new Date(updateData.dateOfBirth)`. -/
def parseDobVal (k : List Char) (v : JVal) : JVal :=
  if k = "dateOfBirth".data then
    match v with
    | JVal.str s => if s ≠ [] then JVal.date s else JVal.str s
    | w => w
  else v

def parseDob (b : Body) : Body :=
  b.map (fun p => (p.1, parseDobVal p.1 p.2))

/-- Outcome of the update-profile handler up to the store write: the 400
no-fields rejection, or the update object passed to
`findByIdAndUpdate($set: ...)`. -/
inductive UpdateOutcome
  | noFields400
  | applied (updateData : Body)
deriving DecidableEq, Repr

/-- The update-profile handler body: strip protected fields, reject an
empty update with 400 "No fields to update", otherwise parse
`dateOfBirth` and apply the remaining fields. -/
def updateProfileHandler (b : Body) : UpdateOutcome :=
  let d := stripUpdateFields b
  if d.length = 0 then UpdateOutcome.noFields400
  else UpdateOutcome.applied (parseDob d)

/-! ## Branch lemmas for the rate-limit check -/

theorem check_of_lookup_none (s : RLStore) (k : RLKey) (now : Nat)
    (h : rlLookup s k = none) :
    otpRateLimiterCheck s k now
      = (RLResult.allow, rlSet s k ⟨1, now + windowMs, false⟩) := by
  unfold otpRateLimiterCheck
  rw [h]

theorem check_of_expired (s : RLStore) (k : RLKey) (now : Nat) (e : RLEntry)
    (h : rlLookup s k = some e) (he : e.resetTime < now) :
    otpRateLimiterCheck s k now
      = (RLResult.allow, rlSet s k ⟨1, now + windowMs, false⟩) := by
  unfold otpRateLimiterCheck
  rw [h]
  simp [he]

theorem check_of_blocked (s : RLStore) (k : RLKey) (now : Nat) (e : RLEntry)
    (h : rlLookup s k = some e) (he : ¬ e.resetTime < now) (hb : e.blocked = true) :
    otpRateLimiterCheck s k now
      = (RLResult.denyBlocked ((e.resetTime - now + 999) / 1000), s) := by
  unfold otpRateLimiterCheck
  rw [h]
  simp [he, hb]

theorem check_of_active_increment (s : RLStore) (k : RLKey) (now : Nat) (e : RLEntry)
    (h : rlLookup s k = some e) (he : ¬ e.resetTime < now) (hb : e.blocked = false)
    (hc : e.count + 1 ≤ maxAttempts) :
    otpRateLimiterCheck s k now
      = (RLResult.allow, rlSet s k ⟨e.count + 1, e.resetTime, e.blocked⟩) := by
  unfold otpRateLimiterCheck
  rw [h]
  simp [he, hb, Nat.not_lt.mpr hc]

theorem check_of_exceed (s : RLStore) (k : RLKey) (now : Nat) (e : RLEntry)
    (h : rlLookup s k = some e) (he : ¬ e.resetTime < now) (hb : e.blocked = false)
    (hc : maxAttempts < e.count + 1) :
    otpRateLimiterCheck s k now
      = (RLResult.denyExceeded, rlSet s k ⟨e.count + 1, now + blockDurationMs, true⟩) := by
  unfold otpRateLimiterCheck
  rw [h]
  simp [he, hb, hc]

/-! ## Claims about the rate limiter -/

/-- C1: the rate-limiter check on an identifier behaves exactly as the
reference policy: fresh/expired entries are replaced by a count=1 entry
with a 60-second window and allowed (lazy expiry); a blocked entry still
within its block window is denied with remaining seconds
ceil((resetTime-now)/1000); otherwise the count is incremented and, past
3 attempts, the entry transitions to blocked with a 300-second window and
is denied, else the check allows and persists the incremented count. -/
theorem rate_limiter_matches_reference_policy :
    ∀ (s : RLStore) (key : RLKey) (now : Nat),
      otpRateLimiterCheck s key now = otpPolicySpec s key now := by
  intro s key now
  unfold otpRateLimiterCheck otpPolicySpec
  cases rlLookup s key with
  | none => rfl
  | some e =>
      simp only [gt_iff_lt, Nat.ceilDiv_eq_add_pred_div, maxAttempts, windowMs,
        blockDurationMs]
      rfl

/-- C2 counterexample: three send-code requests for +919876543210 within
one minute (at 0s, 10s, 20s) are all answered 200 — the third request is
not denied, contradicting the claimed first-two-succeed/third-denied
behavior (429 only arrives at the fourth attempt). -/
theorem third_send_within_minute_allowed :
    (sendOtpTrace [] "+919876543210".data [0, 10000, 20000]).1 = [200, 200, 200]
    ∧ (200 : Nat) ≠ 429 := by
  constructor
  · rfl
  · decide

/-- C2 amended: for a fixed phone number whose key is fresh in the store,
four send-code requests within one minute result in the first three
succeeding (200) and the fourth being denied (429), and a fifth request
made 301 seconds (or more) after the denial succeeds again (200). -/
theorem send_code_three_allowed_fourth_denied
    (s : RLStore) (phone : List Char) (t0 t1 t2 t3 t4 : Nat)
    (h0 : rlLookup s (digitsOnly phone) = none)
    (h01 : t0 ≤ t1) (h12 : t1 ≤ t2) (h23 : t2 ≤ t3)
    (hwin : t3 ≤ t0 + windowMs)
    (h4 : t3 + blockDurationMs < t4) :
    (sendOtpTrace s phone [t0, t1, t2, t3, t4]).1 = [200, 200, 200, 429, 200] := by
  have hwinv : windowMs = 60000 := rfl
  have hmax : maxAttempts = 3 := rfl
  set k := digitsOnly phone with hk
  set s1 : RLStore := rlSet s k ⟨1, t0 + windowMs, false⟩ with hs1
  set s2 : RLStore := rlSet s1 k ⟨2, t0 + windowMs, false⟩ with hs2
  set s3 : RLStore := rlSet s2 k ⟨3, t0 + windowMs, false⟩ with hs3
  set s4 : RLStore := rlSet s3 k ⟨4, t3 + blockDurationMs, true⟩ with hs4
  have c0 : otpRateLimiterCheck s k t0 = (RLResult.allow, s1) :=
    check_of_lookup_none s k t0 h0
  have c1 : otpRateLimiterCheck s1 k t1 = (RLResult.allow, s2) := by
    have h := check_of_active_increment s1 k t1 ⟨1, t0 + windowMs, false⟩
      (rlLookup_rlSet_self s k _)
      (by show ¬ t0 + windowMs < t1; omega)
      rfl (by show (1 : Nat) + 1 ≤ maxAttempts; decide)
    simpa using h
  have c2 : otpRateLimiterCheck s2 k t2 = (RLResult.allow, s3) := by
    have h := check_of_active_increment s2 k t2 ⟨2, t0 + windowMs, false⟩
      (rlLookup_rlSet_self s1 k _)
      (by show ¬ t0 + windowMs < t2; omega)
      rfl (by show (2 : Nat) + 1 ≤ maxAttempts; decide)
    simpa using h
  have c3 : otpRateLimiterCheck s3 k t3 = (RLResult.denyExceeded, s4) := by
    have h := check_of_exceed s3 k t3 ⟨3, t0 + windowMs, false⟩
      (rlLookup_rlSet_self s2 k _)
      (by show ¬ t0 + windowMs < t3; omega)
      rfl (by show maxAttempts < (3 : Nat) + 1; decide)
    simpa using h
  have c4 : otpRateLimiterCheck s4 k t4
      = (RLResult.allow, rlSet s4 k ⟨1, t4 + windowMs, false⟩) := by
    exact check_of_expired s4 k t4 ⟨4, t3 + blockDurationMs, true⟩
      (rlLookup_rlSet_self s3 k _) (by show t3 + blockDurationMs < t4; exact h4)
  simp only [sendOtpTrace, sendOtpTestMode, ← hk, c0, c1, c2, c3, c4, sendOtpStatus]

/-- C2 witness: the amended behavior at concrete times 0s, 10s, 20s, 30s
and 331s for +919876543210 starting from the empty store. -/
theorem send_code_three_allowed_fourth_denied_witness :
    (sendOtpTrace [] "+919876543210".data [0, 10000, 20000, 30000, 331000]).1
      = [200, 200, 200, 429, 200] :=
  send_code_three_allowed_fourth_denied [] "+919876543210".data 0 10000 20000 30000 331000
    rfl (by decide) (by decide) (by decide) (by decide) (by decide)

/-! ## Rate-limit store invariants -/

/-- Every entry stored in the rate-limit map has count at least 1. -/
def storeCountInv (s : RLStore) : Prop :=
  ∀ p ∈ s, 1 ≤ p.2.count

instance (s : RLStore) : Decidable (storeCountInv s) :=
  List.decidableBAll _ s

theorem storeCountInv_rlSet (s : RLStore) (k : RLKey) (e : RLEntry)
    (hs : storeCountInv s) (he : 1 ≤ e.count) : storeCountInv (rlSet s k e) := by
  induction s with
  | nil =>
      intro p hp
      simp only [rlSet, List.mem_singleton] at hp
      simpa [hp] using he
  | cons q t ih =>
      obtain ⟨k₀, e₀⟩ := q
      have ht : storeCountInv t := fun p hp => hs p (List.mem_cons_of_mem _ hp)
      intro p hp
      by_cases h₀ : k₀ = k
      · simp only [rlSet, if_pos h₀, List.mem_cons] at hp
        rcases hp with hp | hp
        · simpa [hp] using he
        · exact hs p (List.mem_cons_of_mem _ hp)
      · simp only [rlSet, if_neg h₀, List.mem_cons] at hp
        rcases hp with hp | hp
        · exact hs p (by simp [hp])
        · exact ih ht p hp

theorem rlLookup_filter_keep (s : RLStore) (k : RLKey) (e : RLEntry)
    (pred : RLKey × RLEntry → Bool)
    (h : rlLookup s k = some e) (hk : pred (k, e) = true) :
    rlLookup (s.filter pred) k = some e := by
  induction s with
  | nil => simp [rlLookup] at h
  | cons q t ih =>
      obtain ⟨k₀, e₀⟩ := q
      by_cases h₀ : k₀ = k
      · subst h₀
        simp only [rlLookup, eq_self_iff_true, if_true, Option.some.injEq] at h
        subst h
        simp [List.filter, hk, rlLookup]
      · simp only [rlLookup, if_neg h₀] at h
        by_cases hq : pred (k₀, e₀)
        · simp [List.filter, hq, rlLookup, h₀, ih h]
        · simp [List.filter, hq, ih h]

/-- C9: every stored rate-limit entry has count at least 1 (preserved by
both the check and the sweep); an entry that is blocked and still within
its block window is left untouched by any check (its count is not
incremented and it is not unblocked) and is kept by the sweep; only after
its resetTime has passed is it replaced by a fresh count=1 unblocked
entry (by a check on its key) or deleted (by the sweep). -/
theorem rate_limit_entry_invariants :
    (∀ (s : RLStore) (k : RLKey) (now : Nat),
       storeCountInv s → storeCountInv (otpRateLimiterCheck s k now).2)
  ∧ (∀ (s : RLStore) (now : Nat),
       storeCountInv s → storeCountInv (cleanupExpiredEntries s now))
  ∧ (∀ (s : RLStore) (k k' : RLKey) (now : Nat) (e : RLEntry),
       rlLookup s k = some e → e.blocked = true → now ≤ e.resetTime →
       rlLookup (otpRateLimiterCheck s k' now).2 k = some e)
  ∧ (∀ (s : RLStore) (k : RLKey) (now : Nat) (e : RLEntry),
       rlLookup s k = some e → now ≤ e.resetTime →
       rlLookup (cleanupExpiredEntries s now) k = some e)
  ∧ (∀ (s : RLStore) (k : RLKey) (now : Nat) (e : RLEntry),
       rlLookup s k = some e → e.resetTime < now →
       otpRateLimiterCheck s k now
         = (RLResult.allow, rlSet s k ⟨1, now + windowMs, false⟩))
  ∧ (∀ (s : RLStore) (k : RLKey) (now : Nat) (e : RLEntry),
       rlLookup s k = some e → e.resetTime < now →
       (k, e) ∉ cleanupExpiredEntries s now) := by
  refine ⟨?check_count, ?sweep_count, ?blocked_untouched, ?sweep_keeps, ?fresh, ?deleted⟩
  case check_count =>
    intro s k now hs
    unfold otpRateLimiterCheck
    cases hl : rlLookup s k with
    | none => exact storeCountInv_rlSet s k _ hs (Nat.le_refl 1)
    | some e =>
        by_cases he : now > e.resetTime
        · simp only [if_pos he]
          exact storeCountInv_rlSet s k _ hs (Nat.le_refl 1)
        · simp only [if_neg he]
          by_cases hb : e.blocked
          · simp only [if_pos hb]
            exact hs
          · simp only [if_neg hb]
            by_cases hc : e.count + 1 > maxAttempts
            · simp only [if_pos hc]
              exact storeCountInv_rlSet s k _ hs (Nat.le_add_left 1 e.count)
            · simp only [if_neg hc]
              exact storeCountInv_rlSet s k _ hs (Nat.le_add_left 1 e.count)
  case sweep_count =>
    intro s now hs p hp
    exact hs p (List.mem_of_mem_filter hp)
  case blocked_untouched =>
    intro s k k' now e h hb hwin
    have hne : ¬ e.resetTime < now := Nat.not_lt.mpr hwin
    by_cases hkk : k = k'
    · subst hkk
      rw [check_of_blocked s k now e h hne hb]
      exact h
    · unfold otpRateLimiterCheck
      cases hl : rlLookup s k' with
      | none => rw [rlLookup_rlSet_ne s k' k _ hkk]; exact h
      | some e' =>
          by_cases he' : now > e'.resetTime
          · simp only [if_pos he']
            rw [rlLookup_rlSet_ne s k' k _ hkk]; exact h
          · simp only [if_neg he']
            by_cases hb' : e'.blocked
            · simp only [if_pos hb']
              exact h
            · simp only [if_neg hb']
              by_cases hc' : e'.count + 1 > maxAttempts
              · simp only [if_pos hc']
                rw [rlLookup_rlSet_ne s k' k _ hkk]; exact h
              · simp only [if_neg hc']
                rw [rlLookup_rlSet_ne s k' k _ hkk]; exact h
  case sweep_keeps =>
    intro s k now e h hwin
    exact rlLookup_filter_keep s k e _ h (by simp [Nat.not_lt.mpr hwin])
  case fresh =>
    intro s k now e h hlt
    exact check_of_expired s k now e h hlt
  case deleted =>
    intro s k now e h hlt hmem
    have := (List.mem_filter.mp hmem).2
    simp [hlt] at this

/-- C9 witness: the invariants instantiated on a concrete store holding a
blocked entry inside its window and an unblocked one. -/
theorem rate_limit_entry_invariants_witness :
    storeCountInv (otpRateLimiterCheck [(['9'], ⟨2, 1000, false⟩)] ['9'] 500).2
    ∧ rlLookup (otpRateLimiterCheck [(['8'], ⟨4, 1000, true⟩)] ['8'] 500).2 ['8']
        = some ⟨4, 1000, true⟩
    ∧ rlLookup (cleanupExpiredEntries [(['8'], ⟨4, 1000, true⟩)] 500) ['8']
        = some ⟨4, 1000, true⟩
    ∧ otpRateLimiterCheck [(['8'], ⟨4, 1000, true⟩)] ['8'] 2000
        = (RLResult.allow, rlSet [(['8'], ⟨4, 1000, true⟩)] ['8'] ⟨1, 2000 + windowMs, false⟩)
    ∧ (['8'], (⟨4, 1000, true⟩ : RLEntry)) ∉ cleanupExpiredEntries [(['8'], ⟨4, 1000, true⟩)] 2000 :=
  ⟨rate_limit_entry_invariants.1 [(['9'], ⟨2, 1000, false⟩)] ['9'] 500 (by decide),
   rate_limit_entry_invariants.2.2.1 [(['8'], ⟨4, 1000, true⟩)] ['8'] ['8'] 500 ⟨4, 1000, true⟩
     (by decide) (by decide) (by decide),
   rate_limit_entry_invariants.2.2.2.1 [(['8'], ⟨4, 1000, true⟩)] ['8'] 500 ⟨4, 1000, true⟩
     (by decide) (by decide),
   rate_limit_entry_invariants.2.2.2.2.1 [(['8'], ⟨4, 1000, true⟩)] ['8'] 2000 ⟨4, 1000, true⟩
     (by decide) (by decide),
   rate_limit_entry_invariants.2.2.2.2.2 [(['8'], ⟨4, 1000, true⟩)] ['8'] 2000 ⟨4, 1000, true⟩
     (by decide) (by decide)⟩

/-! ## Register duplicate handling -/

/-- Inductive invariant of the two-call register race: the document
exists exactly when some call has already created it, at most one call
creates it, a duplicate response or a pre-check hit implies the document
existed, and no call ever reaches the 500 fallback. -/
def RaceInv (s : RaceState) : Prop :=
  (s.present = true ↔
    (s.a = CallSt.done RegOutcome.created201 ∨ s.b = CallSt.done RegOutcome.created201))
  ∧ ¬(s.a = CallSt.done RegOutcome.created201 ∧ s.b = CallSt.done RegOutcome.created201)
  ∧ (s.a = CallSt.done RegOutcome.dupExists400 → s.present = true)
  ∧ (s.b = CallSt.done RegOutcome.dupExists400 → s.present = true)
  ∧ (s.a = CallSt.checked true → s.present = true)
  ∧ (s.b = CallSt.checked true → s.present = true)
  ∧ s.a ≠ CallSt.done RegOutcome.internal500
  ∧ s.b ≠ CallSt.done RegOutcome.internal500

instance (s : RaceState) : Decidable (RaceInv s) := by
  unfold RaceInv
  infer_instance

theorem raceInv_step : ∀ (s : RaceState) (i : CallId),
    RaceInv s → RaceInv (stepRace s i) := by decide

theorem raceInv_run : ∀ (sched : List CallId) (s : RaceState),
    RaceInv s → RaceInv (runRace s sched) := by
  intro sched
  induction sched with
  | nil => intro s hs; exact hs
  | cons i rest ih =>
      intro s hs
      exact ih (stepRace s i) (raceInv_step s i hs)

theorem raceInv_init : RaceInv initRace := by decide

/-- C3: for two register calls racing on the same phone, under every
interleaving of their lookup and write steps, exactly one call is created
(201) and the other fails with the already-exists response; the duplicate
detected by the pre-write lookup and the store's uniqueness-violation
error (code 11000) both map to the same 400 response with the message
"User with this phone number already exists", never a generic 500. -/
theorem register_duplicate_both_paths :
    registerDuplicateResp = registerCatch SaveError.dupKey
  ∧ registerCatch SaveError.dupKey = RegisterResp.clientError alreadyExistsMsg
  ∧ registerHttpStatus (registerCatch SaveError.dupKey) = 400
  ∧ registerCatch SaveError.dupKey ≠ RegisterResp.serverError
  ∧ raceStatusMsg RegOutcome.dupExists400 = (400, some alreadyExistsMsg)
  ∧ (∀ (sched : List CallId) (ra rb : RegOutcome),
      (runRace initRace sched).a = CallSt.done ra →
      (runRace initRace sched).b = CallSt.done rb →
      (ra = RegOutcome.created201 ∧ rb = RegOutcome.dupExists400) ∨
      (ra = RegOutcome.dupExists400 ∧ rb = RegOutcome.created201)) := by
  refine ⟨rfl, rfl, rfl, by decide, rfl, ?race⟩
  intro sched ra rb ha hb
  have hinv := raceInv_run sched initRace raceInv_init
  obtain ⟨hpres, hnot2, hdupa, hdupb, _, _, h500a, h500b⟩ := hinv
  cases ra with
  | created201 =>
      cases rb with
      | created201 => exact absurd ⟨ha, hb⟩ hnot2
      | dupExists400 => exact Or.inl ⟨rfl, rfl⟩
      | internal500 => exact absurd hb h500b
  | dupExists400 =>
      cases rb with
      | created201 => exact Or.inr ⟨rfl, rfl⟩
      | dupExists400 =>
          have hp := hdupa ha
          rcases hpres.mp hp with hc | hc
          · rw [ha] at hc
            exact absurd hc (by decide)
          · rw [hb] at hc
            exact absurd hc (by decide)
      | internal500 => exact absurd hb h500b
  | internal500 => exact absurd ha h500a

/-- C3 witness: the fully sequential interleaving (call A checks and
writes, then call B checks and responds) ends with A created and B
failing with the already-exists response. -/
theorem register_duplicate_both_paths_witness :
    (RegOutcome.created201 = RegOutcome.created201
      ∧ RegOutcome.dupExists400 = RegOutcome.dupExists400)
    ∨ (RegOutcome.created201 = RegOutcome.dupExists400
      ∧ RegOutcome.dupExists400 = RegOutcome.created201) :=
  register_duplicate_both_paths.2.2.2.2.2
    [CallId.A, CallId.A, CallId.B, CallId.B]
    RegOutcome.created201 RegOutcome.dupExists400 (by decide) (by decide)

/-! ## Session tokens -/

/-- C4: a token issued for a subject id and phone verifies successfully
immediately after issuance with claims equal to the issued subject id and
phone; once the configured expiry (7 days by default) has elapsed,
verification of that token reports the expired failure, which is a
distinct outcome from the invalid-signature/malformed failure and is
mapped by the auth middleware to a different message. -/
theorem token_round_trip_and_expiry :
    ∀ (secret uid phone : List Char) (now : Nat),
      verifyToken secret (generateToken secret uid phone now) now
        = VerifyOutcome.ok ⟨uid, phone⟩
    ∧ (∀ t, now + jwtExpiresInSec ≤ t →
        verifyToken secret (generateToken secret uid phone now) t
          = VerifyOutcome.expired)
    ∧ (VerifyOutcome.expired ≠ VerifyOutcome.invalid)
    ∧ authFailureMessage VerifyOutcome.expired ≠ authFailureMessage VerifyOutcome.invalid := by
  intro secret uid phone now
  refine ⟨?fresh, ?stale, by decide, by decide⟩
  case fresh =>
    unfold verifyToken jwtVerify generateToken jwtSign
    have h : ¬ now ≥ now + jwtExpiresInSec := by
      unfold jwtExpiresInSec
      omega
    simp [h]
  case stale =>
    intro t ht
    unfold verifyToken jwtVerify generateToken jwtSign
    simp [ht]

/-- C4 witness: the round trip and the expiry outcome at concrete
arguments, with the expiry checked exactly 7 days after issuance. -/
theorem token_round_trip_and_expiry_witness :
    verifyToken "secret".data (generateToken "secret".data "id1".data "+919876543210".data 0) 0
      = VerifyOutcome.ok ⟨"id1".data, "+919876543210".data⟩
    ∧ verifyToken "secret".data (generateToken "secret".data "id1".data "+919876543210".data 0)
        (0 + jwtExpiresInSec)
      = VerifyOutcome.expired :=
  ⟨(token_round_trip_and_expiry "secret".data "id1".data "+919876543210".data 0).1,
   (token_round_trip_and_expiry "secret".data "id1".data "+919876543210".data 0).2.1
     (0 + jwtExpiresInSec) (Nat.le_refl _)⟩

/-! ## Verify-OTP branching -/

/-- C6: when the gateway reports the code approved (valid and status
approved), the verify-code flow answers 200: with a token for the
profile's id and isNewUser=false when a profile with the submitted phone
exists, and with isNewUser=true and no token field when none exists; in
both branches the profile store is returned unchanged (no record or
verified state is persisted). -/
theorem verify_otp_approved_branching :
    ∀ (gw : GwResult) (users : UserStore) (phone secret : List Char) (now : Nat),
      gw.valid = true → gw.status = GwStatus.approved →
      (∀ uid, userLookup users phone = some uid →
        verifyOtpHandler gw users phone secret now
          = (VerifyOtpResp.existingUser (generateToken secret uid phone now), users)
        ∧ verifyOtpHttpStatus (verifyOtpHandler gw users phone secret now).1 = 200
        ∧ verifyOtpIsNewUserField (verifyOtpHandler gw users phone secret now).1 = some false)
    ∧ (userLookup users phone = none →
        verifyOtpHandler gw users phone secret now = (VerifyOtpResp.newUser, users)
        ∧ verifyOtpHttpStatus (verifyOtpHandler gw users phone secret now).1 = 200
        ∧ verifyOtpTokenField (verifyOtpHandler gw users phone secret now).1 = none
        ∧ verifyOtpIsNewUserField (verifyOtpHandler gw users phone secret now).1 = some true) := by
  intro gw users phone secret now hv hs
  constructor
  · intro uid hu
    have h : verifyOtpHandler gw users phone secret now
        = (VerifyOtpResp.existingUser (generateToken secret uid phone now), users) := by
      unfold verifyOtpHandler
      rw [hv, hs, hu]
      simp
    exact ⟨h, by rw [h]; rfl, by rw [h]; rfl⟩
  · intro hu
    have h : verifyOtpHandler gw users phone secret now = (VerifyOtpResp.newUser, users) := by
      unfold verifyOtpHandler
      rw [hv, hs, hu]
      simp
    exact ⟨h, by rw [h]; rfl, by rw [h]; rfl, by rw [h]; rfl⟩

/-- C6 witness: the approved gateway result against a store holding the
phone (token issued, isNewUser false) and against an empty store
(isNewUser true, no token, store unchanged). -/
theorem verify_otp_approved_branching_witness :
    verifyOtpHandler ⟨GwStatus.approved, true⟩ [("+919876543210".data, "id1".data)]
        "+919876543210".data "secret".data 0
      = (VerifyOtpResp.existingUser
          (generateToken "secret".data "id1".data "+919876543210".data 0),
         [("+919876543210".data, "id1".data)])
    ∧ verifyOtpHandler ⟨GwStatus.approved, true⟩ [] "+919876543210".data "secret".data 0
        = (VerifyOtpResp.newUser, [])
    ∧ verifyOtpTokenField
        (verifyOtpHandler ⟨GwStatus.approved, true⟩ [] "+919876543210".data "secret".data 0).1
      = none :=
  ⟨((verify_otp_approved_branching ⟨GwStatus.approved, true⟩
      [("+919876543210".data, "id1".data)] "+919876543210".data "secret".data 0 rfl rfl).1
      "id1".data (by decide)).1,
   ((verify_otp_approved_branching ⟨GwStatus.approved, true⟩
      [] "+919876543210".data "secret".data 0 rfl rfl).2 rfl).1,
   ((verify_otp_approved_branching ⟨GwStatus.approved, true⟩
      [] "+919876543210".data "secret".data 0 rfl rfl).2 rfl).2.2.1⟩

/-! ## Test-mode OTP verification -/

/-- C8: in test mode, OTP verification is a pure predicate on the
submitted code (the provider is never consulted): a code of exactly six
decimal digits is reported approved and valid, and any other code is
reported not valid, which makes the verify-code endpoint answer 400. -/
theorem test_mode_verify_six_digit_codes :
    ∀ (otp : List Char) (users : UserStore) (phone secret : List Char) (now : Nat),
      (isSixDigitCode otp = true ↔ otp.length = 6 ∧ ∀ c ∈ otp, c.isDigit)
    ∧ (isSixDigitCode otp = true →
        verifyOTPTestMode otp = ⟨GwStatus.approved, true⟩)
    ∧ (isSixDigitCode otp = false →
        (verifyOTPTestMode otp).valid = false
        ∧ (verifyOtpHandler (verifyOTPTestMode otp) users phone secret now).1
            = VerifyOtpResp.invalidOtp
        ∧ verifyOtpHttpStatus
            (verifyOtpHandler (verifyOTPTestMode otp) users phone secret now).1 = 400) := by
  intro otp users phone secret now
  refine ⟨?iff, ?yes, ?no⟩
  case iff =>
    simp [isSixDigitCode, List.all_eq_true]
  case yes =>
    intro h
    unfold verifyOTPTestMode
    rw [h]
    rfl
  case no =>
    intro h
    have hgw : verifyOTPTestMode otp = ⟨GwStatus.pending, false⟩ := by
      unfold verifyOTPTestMode
      rw [h]
      rfl
    refine ⟨by rw [hgw], ?hnd, ?st⟩
    case hnd =>
      rw [hgw]
      rfl
    case st =>
      rw [hgw]
      rfl

/-- C8 witness: code "123456" is approved/valid; codes "12a456" and
"12345" are not valid and drive the verify-code endpoint to 400. -/
theorem test_mode_verify_six_digit_codes_witness :
    verifyOTPTestMode "123456".data = ⟨GwStatus.approved, true⟩
    ∧ (verifyOtpHandler (verifyOTPTestMode "12a456".data) [] "+919876543210".data
        "secret".data 0).1 = VerifyOtpResp.invalidOtp
    ∧ verifyOtpHttpStatus (verifyOtpHandler (verifyOTPTestMode "12345".data) []
        "+919876543210".data "secret".data 0).1 = 400 :=
  ⟨(test_mode_verify_six_digit_codes "123456".data [] "+919876543210".data
      "secret".data 0).2.1 (by decide),
   ((test_mode_verify_six_digit_codes "12a456".data [] "+919876543210".data
      "secret".data 0).2.2 (by decide)).2.1,
   ((test_mode_verify_six_digit_codes "12345".data [] "+919876543210".data
      "secret".data 0).2.2 (by decide)).2.2⟩

/-! ## Phone normalization claims -/

theorem stripNonPhoneChars_of_digits (ds : List Char) (h : ∀ c ∈ ds, c.isDigit) :
    stripNonPhoneChars ds = ds := by
  unfold stripNonPhoneChars
  refine List.filter_eq_self.mpr ?_
  intro c hc
  simp [h c hc]

/-- C7: normalization maps the formatting variants of an Indian mobile
number (the bare 10 digits starting 6-9, the same digits with a 91
prefix, and the same digits with a +91 prefix) to the single canonical
form +91 followed by those 10 digits, and an already-normalized number
is left unchanged. -/
theorem normalize_phone_canonicalizes :
    ∀ (c : Char) (rest : List Char),
      (c :: rest).length = 10 → (∀ x ∈ c :: rest, x.isDigit) → '6' ≤ c → c ≤ '9' →
      normalizePhone (c :: rest) = '+' :: '9' :: '1' :: c :: rest
    ∧ normalizePhone ('9' :: '1' :: c :: rest) = '+' :: '9' :: '1' :: c :: rest
    ∧ normalizePhone ('+' :: '9' :: '1' :: c :: rest) = '+' :: '9' :: '1' :: c :: rest := by
  intro c rest hlen hdig h6 h9
  have hplus : c ≠ '+' := by
    intro hc
    subst hc
    exact absurd h6 (by decide)
  have hstrip : stripNonPhoneChars (c :: rest) = c :: rest :=
    stripNonPhoneChars_of_digits _ hdig
  have hstrip91 : stripNonPhoneChars ('9' :: '1' :: c :: rest) = '9' :: '1' :: c :: rest := by
    refine stripNonPhoneChars_of_digits _ ?_
    intro x hx
    simp only [List.mem_cons] at hx
    rcases hx with rfl | rfl | h
    · decide
    · decide
    · exact hdig x (List.mem_cons.mpr h)
  have hstripP : stripNonPhoneChars ('+' :: '9' :: '1' :: c :: rest)
      = '+' :: '9' :: '1' :: c :: rest := by
    unfold stripNonPhoneChars
    refine List.filter_eq_self.mpr ?_
    intro x hx
    simp only [List.mem_cons] at hx
    rcases hx with rfl | rfl | rfl | h
    · decide
    · decide
    · decide
    · have := hdig x (List.mem_cons.mpr h)
      simp [this]
  refine ⟨?bare, ?with91, ?withPlus⟩
  case bare =>
    unfold normalizePhone
    rw [hstrip]
    have h1 : jsStartsWith (c :: rest) ('+' :: '9' :: '1' :: []) = false := by
      unfold jsStartsWith
      simp [hplus]
    simp [h1, hlen]
  case with91 =>
    unfold normalizePhone
    rw [hstrip91]
    have h2 : jsStartsWith ('9' :: '1' :: c :: rest) ('9' :: '1' :: []) = true := by
      unfold jsStartsWith
      simp [jsStartsWith]
    have hlen12 : ('9' :: '1' :: c :: rest).length = 12 := by
      simp only [List.length_cons]
      simp only [List.length_cons] at hlen
      omega
    simp [jsStartsWith, h2, hlen12]
  case withPlus =>
    unfold normalizePhone
    rw [hstripP]
    have h1 : jsStartsWith ('+' :: '9' :: '1' :: c :: rest) ('+' :: '9' :: '1' :: []) = true := by
      unfold jsStartsWith
      simp [jsStartsWith]
    simp [h1]

/-- C7 witness: normalizing "9876543210", "919876543210" and
"+919876543210" all yield "+919876543210". -/
theorem normalize_phone_canonicalizes_witness :
    normalizePhone "9876543210".data = "+919876543210".data
    ∧ normalizePhone "919876543210".data = "+919876543210".data
    ∧ normalizePhone "+919876543210".data = "+919876543210".data := by
  have h := normalize_phone_canonicalizes '9' "876543210".data
    (by decide) (by decide) (by decide) (by decide)
  exact ⟨h.1, h.2.1, h.2.2⟩

/-! ## Update-profile field stripping -/

theorem getKey_delKey_self (b : Body) (k : List Char) :
    getKey (delKey b k) k = none := by
  induction b with
  | nil => rfl
  | cons p t ih =>
      obtain ⟨k₀, v₀⟩ := p
      by_cases h : k₀ = k
      · simpa [delKey, List.filter_cons, h] using ih
      · simpa [delKey, List.filter_cons, h, getKey] using ih

theorem getKey_delKey_ne (b : Body) (k k' : List Char) (h : k' ≠ k) :
    getKey (delKey b k) k' = getKey b k' := by
  induction b with
  | nil => rfl
  | cons p t ih =>
      obtain ⟨k₀, v₀⟩ := p
      by_cases h₀ : k₀ = k
      · subst h₀
        simpa [delKey, List.filter_cons, getKey, Ne.symm h] using ih
      · by_cases h₁ : k₀ = k'
        · simp [delKey, List.filter_cons, h₀, getKey, h₁, h]
        · simpa [delKey, List.filter_cons, h₀, getKey, h₁] using ih

theorem getKey_parseDob_none (b : Body) (k : List Char)
    (h : getKey b k = none) : getKey (parseDob b) k = none := by
  induction b with
  | nil => rfl
  | cons p t ih =>
      obtain ⟨k₀, v₀⟩ := p
      by_cases h₀ : k₀ = k
      · simp [getKey, h₀] at h
      · simp only [getKey, if_neg h₀] at h
        simpa [parseDob, getKey, h₀] using ih h

theorem truthyKey_delKey_ne (b : Body) (k k' : List Char) (h : k' ≠ k) :
    truthyKey (delKey b k) k' = truthyKey b k' := by
  unfold truthyKey
  rw [getKey_delKey_ne b k k' h]

/-- C5 counterexample: a body whose only field is phone with the (falsy)
empty-string value is not stripped and not rejected: the handler reaches
the apply step with the phone field still present, refuting the claim
that the phone field is removed for every request body and that a body
containing only a phone field yields 400 "no fields to update". -/
theorem update_profile_phone_strip_counterexample :
    updateProfileHandler [("phone".data, JVal.str [])]
        = UpdateOutcome.applied [("phone".data, JVal.str [])]
    ∧ updateProfileHandler [("phone".data, JVal.str [])] ≠ UpdateOutcome.noFields400
    ∧ getKey (stripUpdateFields [("phone".data, JVal.str [])]) "phone".data
        = some (JVal.str []) := by
  refine ⟨by decide, by decide, by decide⟩

/-- C5 amended: the update-profile handler removes the phone and id
fields from the update data whenever their submitted values are truthy
(and the system-managed timestamp fields unconditionally) before the
update is applied; if stripping leaves zero fields the request is
rejected with 400 "no fields to update" — in particular a body whose only
field is a truthy phone value yields that 400 and nothing is applied. -/
theorem update_profile_strips_protected_fields :
    (∀ b : Body,
      (truthyKey b "phone".data = true →
        getKey (stripUpdateFields b) "phone".data = none)
      ∧ (truthyKey b "_id".data = true →
        getKey (stripUpdateFields b) "_id".data = none)
      ∧ getKey (stripUpdateFields b) "__v".data = none
      ∧ getKey (stripUpdateFields b) "createdAt".data = none
      ∧ getKey (stripUpdateFields b) "updatedAt".data = none
      ∧ getKey (stripUpdateFields b) "joinedDate".data = none
      ∧ (stripUpdateFields b = [] →
          updateProfileHandler b = UpdateOutcome.noFields400)
      ∧ (∀ d, updateProfileHandler b = UpdateOutcome.applied d →
          truthyKey b "phone".data = true → getKey d "phone".data = none))
    ∧ (∀ v : JVal, v.truthy = true →
        updateProfileHandler [("phone".data, v)] = UpdateOutcome.noFields400) := by
  have hphid : "phone".data ≠ "_id".data := by decide
  have hphv : "phone".data ≠ "__v".data := by decide
  have hphc : "phone".data ≠ "createdAt".data := by decide
  have hphu : "phone".data ≠ "updatedAt".data := by decide
  have hphj : "phone".data ≠ "joinedDate".data := by decide
  have hidv : "_id".data ≠ "__v".data := by decide
  have hidc : "_id".data ≠ "createdAt".data := by decide
  have hidu : "_id".data ≠ "updatedAt".data := by decide
  have hidj : "_id".data ≠ "joinedDate".data := by decide
  have hvc : "__v".data ≠ "createdAt".data := by decide
  have hvu : "__v".data ≠ "updatedAt".data := by decide
  have hvj : "__v".data ≠ "joinedDate".data := by decide
  have hcu : "createdAt".data ≠ "updatedAt".data := by decide
  have hcj : "createdAt".data ≠ "joinedDate".data := by decide
  have huj : "updatedAt".data ≠ "joinedDate".data := by decide
  have core : ∀ b : Body,
      (truthyKey b "phone".data = true →
        getKey (stripUpdateFields b) "phone".data = none)
      ∧ (truthyKey b "_id".data = true →
        getKey (stripUpdateFields b) "_id".data = none)
      ∧ getKey (stripUpdateFields b) "__v".data = none
      ∧ getKey (stripUpdateFields b) "createdAt".data = none
      ∧ getKey (stripUpdateFields b) "updatedAt".data = none
      ∧ getKey (stripUpdateFields b) "joinedDate".data = none := by
    intro b
    unfold stripUpdateFields
    refine ⟨?hph, ?hid, ?hv, ?hc, ?hu, ?hj⟩
    case hph =>
      intro ht
      have h1 : getKey (stripPhoneIfTruthy b) "phone".data = none := by
        unfold stripPhoneIfTruthy
        rw [if_pos ht]
        exact getKey_delKey_self b "phone".data
      have h2 : getKey (stripIdIfTruthy (stripPhoneIfTruthy b)) "phone".data = none := by
        unfold stripIdIfTruthy
        by_cases hi : truthyKey (stripPhoneIfTruthy b) "_id".data = true
        · rw [if_pos hi, getKey_delKey_ne _ "_id".data "phone".data hphid]
          exact h1
        · rw [if_neg hi]
          exact h1
      rw [getKey_delKey_ne _ _ _ hphj, getKey_delKey_ne _ _ _ hphu,
        getKey_delKey_ne _ _ _ hphc, getKey_delKey_ne _ _ _ hphv]
      exact h2
    case hid =>
      intro ht
      have ht1 : truthyKey (stripPhoneIfTruthy b) "_id".data = true := by
        unfold stripPhoneIfTruthy
        by_cases hp : truthyKey b "phone".data = true
        · rw [if_pos hp, truthyKey_delKey_ne b "phone".data "_id".data (Ne.symm hphid)]
          exact ht
        · rw [if_neg hp]
          exact ht
      have h2 : getKey (stripIdIfTruthy (stripPhoneIfTruthy b)) "_id".data = none := by
        unfold stripIdIfTruthy
        rw [if_pos ht1]
        exact getKey_delKey_self (stripPhoneIfTruthy b) "_id".data
      rw [getKey_delKey_ne _ _ _ hidj, getKey_delKey_ne _ _ _ hidu,
        getKey_delKey_ne _ _ _ hidc, getKey_delKey_ne _ _ _ hidv]
      exact h2
    case hv =>
      rw [getKey_delKey_ne _ _ _ hvj, getKey_delKey_ne _ _ _ hvu,
        getKey_delKey_ne _ _ _ hvc]
      exact getKey_delKey_self (stripIdIfTruthy (stripPhoneIfTruthy b)) "__v".data
    case hc =>
      rw [getKey_delKey_ne _ _ _ hcj, getKey_delKey_ne _ _ _ hcu]
      exact getKey_delKey_self
        (delKey (stripIdIfTruthy (stripPhoneIfTruthy b)) "__v".data) "createdAt".data
    case hu =>
      rw [getKey_delKey_ne _ _ _ huj]
      exact getKey_delKey_self
        (delKey (delKey (stripIdIfTruthy (stripPhoneIfTruthy b)) "__v".data)
          "createdAt".data) "updatedAt".data
    case hj =>
      exact getKey_delKey_self
        (delKey (delKey (delKey (stripIdIfTruthy (stripPhoneIfTruthy b)) "__v".data)
          "createdAt".data) "updatedAt".data)
        "joinedDate".data
  constructor
  · intro b
    obtain ⟨hph, hid, hv, hc, hu, hj⟩ := core b
    refine ⟨hph, hid, hv, hc, hu, hj, ?hempty, ?happlied⟩
    case hempty =>
      intro h
      unfold updateProfileHandler
      rw [h]
      rfl
    case happlied =>
      intro d hd ht
      unfold updateProfileHandler at hd
      by_cases hl : (stripUpdateFields b).length = 0
      · rw [if_pos hl] at hd
        exact absurd hd (by simp)
      · rw [if_neg hl] at hd
        have hdd : d = parseDob (stripUpdateFields b) :=
          (UpdateOutcome.applied.injEq _ _ ▸ hd).symm
        rw [hdd]
        exact getKey_parseDob_none _ _ (hph ht)
  · intro v hv
    have h1 : truthyKey [("phone".data, v)] "phone".data = true := by
      simp [truthyKey, getKey, hv]
    have h2 : stripPhoneIfTruthy [("phone".data, v)] = [] := by
      unfold stripPhoneIfTruthy
      rw [if_pos h1]
      simp [delKey]
    unfold updateProfileHandler stripUpdateFields
    rw [h2]
    rfl

/-- C5 witness: a body containing only a (truthy) phone field, as in the
spec's example, yields 400 "no fields to update". -/
theorem update_profile_strips_protected_fields_witness :
    updateProfileHandler [("phone".data, JVal.str "+910000000000".data)]
      = UpdateOutcome.noFields400 :=
  update_profile_strips_protected_fields.2 (JVal.str "+910000000000".data) (by decide)

/-- C10: the update-profile handler deletes the phone field only when its
value is truthy: a request body whose only key is phone with a falsy
value is not answered 400 "No fields to update" — the handler proceeds to
apply an update that still contains the phone field. -/
theorem update_profile_falsy_phone_proceeds :
    ∀ v : JVal, v.truthy = false →
      updateProfileHandler [("phone".data, v)]
        = UpdateOutcome.applied [("phone".data, v)]
      ∧ updateProfileHandler [("phone".data, v)] ≠ UpdateOutcome.noFields400 := by
  intro v hv
  have h1 : truthyKey [("phone".data, v)] "phone".data = false := by
    simp [truthyKey, getKey, hv]
  have hid : truthyKey [("phone".data, v)] "_id".data = false := by
    simp [truthyKey, getKey]
  have hstrip : stripUpdateFields [("phone".data, v)] = [("phone".data, v)] := by
    have hp : stripPhoneIfTruthy [("phone".data, v)] = [("phone".data, v)] := by
      unfold stripPhoneIfTruthy
      rw [if_neg (by rw [h1]; exact Bool.false_ne_true)]
    have hi : stripIdIfTruthy [("phone".data, v)] = [("phone".data, v)] := by
      unfold stripIdIfTruthy
      rw [if_neg (by rw [hid]; exact Bool.false_ne_true)]
    unfold stripUpdateFields
    rw [hp, hi]
    simp [delKey]
  have hdob : parseDob [("phone".data, v)] = [("phone".data, v)] := by
    simp [parseDob, parseDobVal]
  have h : updateProfileHandler [("phone".data, v)]
      = UpdateOutcome.applied [("phone".data, v)] := by
    unfold updateProfileHandler
    rw [hstrip]
    simp [hdob]
  exact ⟨h, by rw [h]; simp⟩

/-- C10 witness: the empty-string phone value. -/
theorem update_profile_falsy_phone_proceeds_witness :
    updateProfileHandler [("phone".data, JVal.str "".data)]
      = UpdateOutcome.applied [("phone".data, JVal.str "".data)] :=
  (update_profile_falsy_phone_proceeds (JVal.str "".data) rfl).1

end VishwakarmaBackend
